import Mathlib

/-!
Shallow embedding of the NITT Memo & Mail Tracking System (src/Memo.py),
a single-file Streamlit app whose datastore is a pandas DataFrame persisted
to an Excel file.  Cells of the table are modelled by the inductive `Val`
(the values the program actually stores or reads back: NaN, strings, and
inline history lists); a row is an association list from column names to
values, and a DataFrame is a column list plus a row list.  Excel
serialization itself is modelled as the identity on tables (the file state
is `Option DataFrame`, `none` meaning the file does not exist); arbitrary
`Val` contents of a read table still let us model cells that are NaN or
hold non-list values.  All definitions are computable so concrete runs can
be checked by `decide`.
-/

/-- One entry of the inline history list appended by the Forward/Reply
handler (src/Memo.py lines 300-306): a dict with keys Date, Action, To,
Comment, Attachment (the attachment name, or Python None). -/
structure HEntry where
  Date : String
  Action : String
  To : String
  Comment : String
  Attachment : Option String
deriving DecidableEq

/-- A cell value of the memo table: NaN (missing), a string-like scalar
(titles, dates, statuses, ...), or an inline history list. -/
inductive Val where
  | nan : Val
  | str : String → Val
  | vlist : List HEntry → Val
deriving DecidableEq

/-- A row of the table: an association list from column names to values.
A key absent from the list reads as NaN (pandas fills missing cells of a
concatenated frame with NaN). -/
abbrev Row := List (String × Val)

/-- Cell lookup in a row; absent keys read as NaN. -/
def Row.get : Row → String → Val
  | [], _ => Val.nan
  | (c, v) :: r, c' => if c = c' then v else Row.get r c'

/-- Cell update in a row: replaces the first binding of the key, or appends
a new binding when the key is absent. -/
def Row.set : Row → String → Val → Row
  | [], c, v => [(c, v)]
  | (c', v') :: r, c, v => if c' = c then (c, v) :: r else (c', v') :: Row.set r c v

/-- The in-memory table: pandas DataFrame with its column list and rows. -/
structure DataFrame where
  cols : List String
  rows : List Row
deriving DecidableEq

/-- pd.DataFrame(): the empty frame returned by load_memos when the records
file does not exist (src/Memo.py line 72). -/
def DataFrame.emptyDF : DataFrame := ⟨[], []⟩

/-- The column names carried by a row (the keys of the memo_data dict). -/
def rowCols (r : Row) : List String := r.map (·.1)

/-- pd.concat([df, pd.DataFrame([data])], ignore_index=True)
(src/Memo.py line 52): columns are the union (new keys appended), the data
row is appended; cells of either side missing a column read as NaN via
Row.get. -/
def concatRow (df : DataFrame) (data : Row) : DataFrame :=
  { cols := df.cols ++ (rowCols data).filter (fun c => !(decide (c ∈ df.cols))),
    rows := df.rows ++ [data] }

/-- Whole-column assignment df[c] = f(row) — creates the column when
absent and sets the cell of every row. -/
def setColumn (df : DataFrame) (c : String) (f : Row → Val) : DataFrame :=
  { cols := if c ∈ df.cols then df.cols else df.cols ++ [c],
    rows := df.rows.map (fun r => Row.set r c (f r)) }

/-- The lambda of src/Memo.py lines 59 and 69:
lambda x: [] if pd.isna(x) else x. -/
def normHist (v : Val) : Val :=
  match v with
  | Val.nan => Val.vlist []
  | v => v

/-- The History-column guard shared verbatim by save_memo_record
(lines 55-59) and load_memos (lines 66-69): create the History column with
one empty list per row when it is missing, otherwise replace NaN History
cells with empty lists. -/
def ensureHistory (df : DataFrame) : DataFrame :=
  if "History" ∈ df.cols then
    setColumn df "History" (fun r => normHist (Row.get r "History"))
  else
    setColumn df "History" (fun _ => Val.vlist [])

/-- save_memo_record(data) (src/Memo.py lines 48-60): read the whole file
if it exists and append data as one row, else start a fresh one-row frame;
run the History guard; write the whole frame back.  The returned frame is
the new file content. -/
def save_memo_record (data : Row) (file : Option DataFrame) : DataFrame :=
  ensureHistory
    (match file with
     | some df => concatRow df data
     | none => ⟨rowCols data, [data]⟩)

/-- load_memos() (src/Memo.py lines 62-72): read the file and run the
History guard, or return the empty frame when the file does not exist. -/
def load_memos (file : Option DataFrame) : DataFrame :=
  match file with
  | some df => ensureHistory df
  | none => DataFrame.emptyDF

/-- Point update of one row of the row list (df.at[i, c] = v keeps every
other row untouched). -/
def modifyNth (f : Row → Row) : Nat → List Row → List Row
  | _, [] => []
  | 0, r :: rs => f r :: rs
  | n + 1, r :: rs => r :: modifyNth f n rs

/-- The history value the Forward/Reply handler starts from
(src/Memo.py lines 297-299): the cell if it is a list, else a fresh []. -/
def histListOf (r : Row) : List HEntry :=
  match Row.get r "History" with
  | Val.vlist h => h
  | _ => []

/-- The entry dict built at src/Memo.py lines 300-306. -/
def mkForwardEntry (now forward_to comment : String)
    (attachmentName : Option String) : HEntry :=
  ⟨now, "Forwarded/Reply", forward_to, comment, attachmentName⟩

/-- The in-memory effect of the Forward/Reply button on df_memos
(src/Memo.py lines 296-310): append one entry to the selected row's
History, set its Current Location to the target, and set its Status to
"Forwarded to " ++ target. -/
def forwardReply (df : DataFrame) (idx : Nat) (now forward_to comment : String)
    (attachmentName : Option String) : DataFrame :=
  let history := histListOf (df.rows.getD idx [])
  let history' := history ++ [mkForwardEntry now forward_to comment attachmentName]
  { df with
    rows := modifyNth
      (fun row =>
        Row.set
          (Row.set (Row.set row "History" (Val.vlist history'))
            "Current Location" (Val.str forward_to))
          "Status" (Val.str ("Forwarded to " ++ forward_to)))
      idx df.rows }

/-- The dashboard's column guard (src/Memo.py lines 178-179):
df_memos['Current Location'] = df_memos.get('To', '') when the
Current Location column is absent; DataFrame.get returns the To column when
present and the scalar '' otherwise. -/
def dashboard_ensure_location (df : DataFrame) : DataFrame :=
  if "Current Location" ∈ df.cols then df
  else if "To" ∈ df.cols then
    setColumn df "Current Location" (fun r => Row.get r "To")
  else
    setColumn df "Current Location" (fun _ => Val.str "")

/-- Python str.strip() on the title (src/Memo.py line 128), modelled as
dropping whitespace characters from both ends. -/
def pyStrip (s : String) : String :=
  String.mk (((s.data.dropWhile Char.isWhitespace).reverse.dropWhile
    Char.isWhitespace).reverse)

/-- Python str.replace(pat, rep) for a non-empty pattern: replace all
non-overlapping occurrences left to right.  Fuel-based so that it is
structural; the initial fuel is the string length, enough because every
step consumes at least one character. -/
def pyReplaceAux (pat rep : List Char) : Nat → List Char → List Char
  | _, [] => []
  | 0, s => s
  | fuel + 1, c :: rest =>
    if pat.isPrefixOf (c :: rest) then
      rep ++ pyReplaceAux pat rep fuel (List.drop pat.length (c :: rest))
    else
      c :: pyReplaceAux pat rep fuel rest

/-- Python s.replace(pat, rep) (used at src/Memo.py lines 87 and 133). -/
def pyReplace (s pat rep : String) : String :=
  String.mk (pyReplaceAux pat.data rep.data s.data.length s.data)

/-- Python s.lower() on the file extension (src/Memo.py line 140). -/
def pyLower (s : String) : String := String.mk (s.data.map Char.toLower)

/-- Python s.split(sep) for a single-character separator. -/
def splitOnChar (sep : Char) : List Char → List (List Char)
  | [] => [[]]
  | c :: rest =>
    let r := splitOnChar sep rest
    if c = sep then [] :: r
    else
      match r with
      | [] => [[c]]
      | g :: gs => (c :: g) :: gs

/-- uploaded_file.name.split(".")[-1] (src/Memo.py line 134). -/
def fileExtension (name : String) : String :=
  String.mk ((splitOnChar '.' name.data).getLastD [])

/-- memo_number.replace("/", "-") (src/Memo.py line 133). -/
def safeMemoNumber (mn : String) : String := pyReplace mn "/" "-"

/-- pdf_path.replace(".pdf", "_stamped.pdf") — the path the stamped copy is
written to by stamp_pdf_with_memo_number (src/Memo.py line 87). -/
def stampedPath (p : String) : String := pyReplace p ".pdf" "_stamped.pdf"

/-- The records file path (src/Memo.py line 23). -/
def memoFilePath : String := "memos/records/memo_records.xlsx"

/-- The scanned-memos folder (src/Memo.py line 24). -/
def scannedFolder : String := "memos/scanned/"

/-- An uploaded file, as far as the handlers inspect it: its name. -/
structure Upload where
  name : String
deriving DecidableEq

/-- The persistent state the app writes: the records file (identified with
its table; none = absent) and the paths written so far under the scanned
and attachments folders. -/
structure Storage where
  memoFile : Option DataFrame
  scannedFiles : List String
  attachmentFiles : List String
deriving DecidableEq

/-- The Log Memo form fields (src/Memo.py lines 109-121).  Streamlit text
inputs default to the empty string, so fields of the branch not shown are
empty. -/
structure LogForm where
  memoType : String
  title : String
  dateReceived : String
  signatory : String
  fromDept : String
  toDept : String
  senderName : String
  senderAddress : String
  senderEmail : String
  senderPhone : String

/-- The memo_data dict built at src/Memo.py lines 143-160. -/
def memo_data (memoNumber : String) (f : LogForm) : Row :=
  [("Memo Number", Val.str memoNumber),
   ("Title", Val.str f.title),
   ("Date Received", Val.str f.dateReceived),
   ("Type", Val.str f.memoType),
   ("Signatory", Val.str f.signatory),
   ("Status", Val.str "Pending"),
   ("Current Location",
     Val.str (if f.memoType = "Internal" then f.toDept else f.senderName))] ++
  (if f.memoType = "Internal" then
    [("From", Val.str f.fromDept), ("To", Val.str f.toDept)]
  else
    [("Sender Name", Val.str f.senderName),
     ("Sender Address", Val.str f.senderAddress),
     ("Sender Email", Val.str f.senderEmail),
     ("Sender Phone", Val.str f.senderPhone)])

/-- Outcome shown by the Save Memo Record handler: one of the two
validation errors, or success. -/
inductive SaveOutcome where
  | errorTitle : SaveOutcome
  | errorNoFile : SaveOutcome
  | success : SaveOutcome
deriving DecidableEq

/-- The Save Memo Record button handler (src/Memo.py lines 127-163):
validate title and upload; then write the scanned file, write the stamped
copy when the extension is pdf, and append the record via
save_memo_record. -/
def saveMemoButton (memoNumber : String) (f : LogForm) (uploaded : Option Upload)
    (σ : Storage) : SaveOutcome × Storage :=
  if pyStrip f.title = "" then (SaveOutcome.errorTitle, σ)
  else
    match uploaded with
    | none => (SaveOutcome.errorNoFile, σ)
    | some up =>
      let ext := fileExtension up.name
      let scannedPath := scannedFolder ++ "/" ++ safeMemoNumber memoNumber ++ "." ++ ext
      let σ1 := { σ with scannedFiles := σ.scannedFiles ++ [scannedPath] }
      let σ2 :=
        if pyLower ext = "pdf" then
          { σ1 with scannedFiles := σ1.scannedFiles ++ [stampedPath scannedPath] }
        else σ1
      (SaveOutcome.success,
       { σ2 with memoFile := some (save_memo_record (memo_data memoNumber f) σ2.memoFile) })

/-- The Forward/Reply button handler (src/Memo.py lines 296-318): update
df_memos in memory via forwardReply, write the optional attachment, then
overwrite the records file with the whole in-memory table. -/
def forwardButton (dfMemos : DataFrame) (idx : Nat)
    (selectedMemo now forward_to comment : String) (attachment : Option Upload)
    (σ : Storage) : Storage :=
  let df2 := forwardReply dfMemos idx now forward_to comment (attachment.map (·.name))
  let σ1 :=
    match attachment with
    | some up =>
      { σ with attachmentFiles :=
          σ.attachmentFiles ++ ["memos/attachments" ++ "/" ++ selectedMemo ++ "_" ++ up.name] }
    | none => σ
  { σ1 with memoFile := some df2 }

/-- A Forward/Reply press as the script runs it: df_memos was loaded from
the file content F0 seen at script start (src/Memo.py line 95); the press
happens later, when the file may hold anything (σ.memoFile). -/
def scriptForwardRun (F0 : Option DataFrame) (idx : Nat)
    (selectedMemo now forward_to comment : String) (attachment : Option Upload)
    (σ : Storage) : Storage :=
  forwardButton (load_memos F0) idx selectedMemo now forward_to comment attachment σ

/-- The sidebar pages (src/Memo.py line 101). -/
def appPages : List String :=
  ["Log Memo", "Dashboard & Search", "Preview & Approve / Forward"]

/-- The st.button calls of each page: line 127 on Log Memo, line 240 on
Dashboard & Search, line 296 on Preview & Approve / Forward.  These are
the only operations a user can trigger on a page. -/
def pageButtons (page : String) : List String :=
  if page = "Log Memo" then ["Save Memo Record"]
  else if page = "Dashboard & Search" then ["Download Filtered Records"]
  else if page = "Preview & Approve / Forward" then ["Forward/Reply"]
  else []

/-- A straight-line file-writing program, with a try/except construct in
the language so that absence of error handling in the embedded handlers is
a checkable fact rather than a modelling assumption. -/
inductive Prog where
  | ret : Prog
  | write : String → Prog → Prog
  | tryCatch : Prog → Prog → Prog → Prog
deriving DecidableEq

/-- True when the program contains no try/except. -/
def catchFree : Prog → Bool
  | Prog.ret => true
  | Prog.write _ k => catchFree k
  | Prog.tryCatch _ _ _ => false

/-- The writes a program would perform if everything succeeds. -/
def progWrites : Prog → List String
  | Prog.ret => []
  | Prog.write p k => p :: progWrites k
  | Prog.tryCatch b h k => progWrites b ++ progWrites h ++ progWrites k

/-- Run a program against an oracle saying which write targets succeed: a
failing write raises, which aborts the run unless a surrounding tryCatch
handles it.  Returns the writes performed and the final result. -/
def runProg (oracle : String → Bool) : Prog → List String × Except String Unit
  | Prog.ret => ([], Except.ok ())
  | Prog.write p k =>
    if oracle p then
      let (ws, r) := runProg oracle k
      (p :: ws, r)
    else ([], Except.error p)
  | Prog.tryCatch b h k =>
    let (wb, rb) := runProg oracle b
    match rb with
    | Except.ok _ =>
      let (wk, rk) := runProg oracle k
      (wb ++ wk, rk)
    | Except.error _ =>
      let (wh, rh) := runProg oracle h
      match rh with
      | Except.ok _ =>
        let (wk, rk) := runProg oracle k
        (wb ++ wh ++ wk, rk)
      | Except.error e => (wb ++ wh, Except.error e)

/-- The file writes of the Save Memo Record handler (src/Memo.py
lines 127-162), in program order: nothing when validation fails, else the
scanned file (line 137), the stamped copy when the upload is a pdf
(line 88 inside stamp_pdf_with_memo_number), and the records file
(line 60 inside save_memo_record).  The source wraps none of them in
try/except. -/
def saveMemoProg (titleEmpty noUpload isPdf : Bool) (scanned : String) : Prog :=
  if titleEmpty then Prog.ret
  else if noUpload then Prog.ret
  else
    Prog.write scanned
      (if isPdf then
        Prog.write (stampedPath scanned) (Prog.write memoFilePath Prog.ret)
      else Prog.write memoFilePath Prog.ret)

/-- The file writes of the Forward/Reply handler (src/Memo.py
lines 296-318): the attachment when one was uploaded (line 316), then the
records file (line 318), with no try/except. -/
def forwardReplyProg (hasAttachment : Bool) (attachPath : String) : Prog :=
  if hasAttachment then Prog.write attachPath (Prog.write memoFilePath Prog.ret)
  else Prog.write memoFilePath Prog.ret

/-- Big-endian decimal digits of n, via Mathlib's little-endian
Nat.digits. -/
def decDigitsBE (n : Nat) : List Nat := (Nat.digits 10 n).reverse

/-- The decimal digit characters. -/
def decChar (d : Nat) : Char := Char.ofNat (48 + d)

/-- Python str(n) for a natural number: its decimal digits, most
significant first. -/
def pyStr (n : Nat) : String := String.mk ((decDigitsBE n).map decChar)

/-- Python s[:k]. -/
def pyTake (s : String) (k : Nat) : String := String.mk (s.data.take k)

/-- generate_memo_number (src/Memo.py lines 42-46):
f"NITT/DG/{year}/{str(uuid.uuid4().int)[:4]}" with year the current year
and u the freshly drawn uuid4 value as an integer.  It reads no stored
records: its only inputs are the clock and the fresh uuid. -/
def generate_memo_number (year u : Nat) : String :=
  "NITT/DG/" ++ pyStr year ++ "/" ++ pyTake (pyStr u) 4

/-! Concrete fixtures used by counterexamples and witnesses. -/

/-- A stored table whose single row has a NaN History cell, as read_excel
yields for a blank cell. -/
def dfNanHistory : DataFrame :=
  ⟨["Title", "History"], [[("Title", Val.str "old"), ("History", Val.nan)]]⟩

/-- A one-column record to append in concrete runs. -/
def rowNew : Row := [("Title", Val.str "new")]

/-- A stored table whose single row has a pending memo with an empty
history list. -/
def dfPending : DataFrame :=
  ⟨["Memo Number", "Status", "Current Location", "History"],
   [[("Memo Number", Val.str "M1"), ("Status", Val.str "Pending"),
     ("Current Location", Val.str "Registry"), ("History", Val.vlist [])]]⟩

/-- A stored table whose single row has a non-NaN, non-list History cell,
as read_excel yields after an Excel round-trip of a list cell. -/
def dfStrHistory : DataFrame :=
  ⟨["History"], [[("History", Val.str "stale")]]⟩

/-- A concrete filled Log Memo form (internal memo). -/
def formInternal : LogForm :=
  ⟨"Internal", "Budget", "2025-01-02", "DG", "Registry", "Bursary",
   "", "", "", ""⟩

/-- An empty persistent state. -/
def storage0 : Storage := ⟨none, [], []⟩

/-- Python repr of a string value, as str() of a dict renders it (quote
escaping inside the value is not modelled; nothing below depends on the
string's exact shape, only on the cell no longer being a list). -/
def pyReprStr (s : String) : String := "\x27" ++ s ++ "\x27"

/-- Python repr of an optional string: None or the quoted string. -/
def pyReprOpt : Option String → String
  | none => "None"
  | some s => pyReprStr s

/-- str() of one history entry dict, key order as built at src/Memo.py
lines 300-306. -/
def pyReprEntry (e : HEntry) : String :=
  "\x7b\x27Date\x27: " ++ pyReprStr e.Date ++ ", \x27Action\x27: " ++ pyReprStr e.Action ++
  ", \x27To\x27: " ++ pyReprStr e.To ++ ", \x27Comment\x27: " ++ pyReprStr e.Comment ++
  ", \x27Attachment\x27: " ++ pyReprOpt e.Attachment ++ "\x7d"

/-- str() of a history list — what pandas falls back to when a cell holds a
non-scalar value it cannot store natively. -/
def pyReprHist (h : List HEntry) : String :=
  "[" ++ String.intercalate ", " (h.map pyReprEntry) ++ "]"

/-- What one cell becomes across the Excel round-trip (to_excel at
src/Memo.py lines 60 and 318, read_excel at lines 51 and 65): Excel has no
list cell type, so to_excel stores str(val) for a list cell and read_excel
returns that string; scalar cells come back as they are. -/
def excelCell (v : Val) : Val :=
  match v with
  | Val.vlist h => Val.str (pyReprHist h)
  | v => v

/-- The Excel round-trip applied to the whole table: what a table written
by one run looks like when the next run reads the records file. -/
def excelRoundTrip (df : DataFrame) : DataFrame :=
  { df with rows := df.rows.map (fun r => r.map (fun p => (p.1, excelCell p.2))) }

/-- The in-memory table after a first Forward/Reply press in a run that
loaded dfPending. -/
def dfRun1 : DataFrame :=
  forwardReply (load_memos (some dfPending)) 0 "2025-01-01 10:00" "Bursary" "c1" none

/-- The in-memory table after a second Forward/Reply press on the same
memo, in the rerun that loads what the first press persisted: the records
file now holds the round-tripped table, whose History cell is a string. -/
def dfRun2 : DataFrame :=
  forwardReply (load_memos (some (excelRoundTrip dfRun1))) 0 "2025-01-02 11:00" "SA" "c2" none

example :
    save_memo_record [("Title", Val.str "t")] none =
      ⟨["Title", "History"],
       [[("Title", Val.str "t"), ("History", Val.vlist [])]]⟩ := by decide

example :
    load_memos (some ⟨["History"], [[("History", Val.nan)]]⟩) =
      ⟨["History"], [[("History", Val.vlist [])]]⟩ := by decide

/-! Helper lemmas about rows, point updates and the column guard. -/

theorem Row.get_set_self (r : Row) (c : String) (v : Val) :
    Row.get (Row.set r c v) c = v := by
  induction r with
  | nil => simp [Row.set, Row.get]
  | cons p r ih =>
    obtain ⟨c', v'⟩ := p
    by_cases h : c' = c
    · subst h; simp [Row.set, Row.get]
    · simp [Row.set, Row.get, h, ih]

theorem Row.get_set_ne (r : Row) {c c' : String} (v : Val) (h : c ≠ c') :
    Row.get (Row.set r c v) c' = Row.get r c' := by
  induction r with
  | nil => simp [Row.set, Row.get, h]
  | cons p r ih =>
    obtain ⟨c₀, v₀⟩ := p
    by_cases h0 : c₀ = c
    · subst h0; simp [Row.set, Row.get, h]
    · simp [Row.set, Row.get, h0, ih]

theorem modifyNth_length (f : Row → Row) (i : Nat) (l : List Row) :
    (modifyNth f i l).length = l.length := by
  induction l generalizing i with
  | nil => simp [modifyNth]
  | cons r rs ih =>
    cases i with
    | zero => simp [modifyNth]
    | succ n => simp [modifyNth, ih]

theorem modifyNth_getD_self (f : Row → Row) (l : List Row) (i : Nat)
    (h : i < l.length) :
    (modifyNth f i l).getD i [] = f (l.getD i []) := by
  induction l generalizing i with
  | nil => simp at h
  | cons r rs ih =>
    cases i with
    | zero => simp [modifyNth]
    | succ n =>
      simp only [modifyNth, List.getD_cons_succ]
      exact ih n (by simpa using h)

theorem modifyNth_getD_ne (f : Row → Row) (l : List Row) {i j : Nat}
    (h : i ≠ j) :
    (modifyNth f i l).getD j [] = l.getD j [] := by
  induction l generalizing i j with
  | nil => simp [modifyNth]
  | cons r rs ih =>
    cases i with
    | zero =>
      cases j with
      | zero => exact absurd rfl h
      | succ m => simp [modifyNth]
    | succ n =>
      cases j with
      | zero => simp [modifyNth]
      | succ m =>
        simp only [modifyNth, List.getD_cons_succ]
        exact ih (by omega)

theorem getD_map_of_lt (f : Row → Row) (l : List Row) (i : Nat)
    (h : i < l.length) :
    (l.map f).getD i [] = f (l.getD i []) := by
  induction l generalizing i with
  | nil => simp at h
  | cons r rs ih =>
    cases i with
    | zero => simp
    | succ n =>
      simp only [List.map_cons, List.getD_cons_succ]
      exact ih n (by simpa using h)

theorem setColumn_rows_length (df : DataFrame) (c : String) (f : Row → Val) :
    (setColumn df c f).rows.length = df.rows.length := by
  simp [setColumn]

theorem setColumn_getD (df : DataFrame) (c : String) (f : Row → Val) (i : Nat)
    (h : i < df.rows.length) :
    (setColumn df c f).rows.getD i [] =
      Row.set (df.rows.getD i []) c (f (df.rows.getD i [])) := by
  simp only [setColumn]
  exact getD_map_of_lt _ _ _ h

theorem ensureHistory_rows_length (df : DataFrame) :
    (ensureHistory df).rows.length = df.rows.length := by
  unfold ensureHistory
  split <;> simp [setColumn_rows_length]

theorem ensureHistory_get_ne (df : DataFrame) (i : Nat) {c : String}
    (hc : c ≠ "History") (hi : i < df.rows.length) :
    Row.get ((ensureHistory df).rows.getD i []) c =
      Row.get (df.rows.getD i []) c := by
  unfold ensureHistory
  split <;>
    rw [setColumn_getD _ _ _ _ hi, Row.get_set_ne _ _ (fun h => hc h.symm)]

theorem ensureHistory_get_history (df : DataFrame) (i : Nat)
    (hi : i < df.rows.length) :
    Row.get ((ensureHistory df).rows.getD i []) "History" =
      (if "History" ∈ df.cols then
        normHist (Row.get (df.rows.getD i []) "History")
      else Val.vlist []) := by
  unfold ensureHistory
  by_cases h : "History" ∈ df.cols
  · rw [if_pos h, if_pos h, setColumn_getD _ _ _ _ hi, Row.get_set_self]
  · rw [if_neg h, if_neg h, setColumn_getD _ _ _ _ hi, Row.get_set_self]

theorem getD_append_left (l l' : List Row) (i : Nat) (h : i < l.length) :
    (l ++ l').getD i [] = l.getD i [] := by
  induction l generalizing i with
  | nil => simp at h
  | cons r rs ih =>
    cases i with
    | zero => simp
    | succ n =>
      simp only [List.cons_append, List.getD_cons_succ]
      exact ih n (by simpa using h)

theorem getD_append_length (l : List Row) (x : Row) :
    (l ++ [x]).getD l.length [] = x := by
  induction l with
  | nil => simp
  | cons r rs ih => simp [ih]

theorem normHist_vlist (h : List HEntry) :
    normHist (Val.vlist h) = Val.vlist h := rfl

theorem normHist_ne_nan (v : Val) : normHist v ≠ Val.nan := by
  cases v <;> simp [normHist]

theorem forwardReply_rows_getD_self (df : DataFrame) (idx : Nat)
    (now fwd cm : String) (att : Option String) (hidx : idx < df.rows.length) :
    (forwardReply df idx now fwd cm att).rows.getD idx [] =
      Row.set (Row.set (Row.set (df.rows.getD idx []) "History"
        (Val.vlist (histListOf (df.rows.getD idx []) ++ [mkForwardEntry now fwd cm att])))
        "Current Location" (Val.str fwd)) "Status" (Val.str ("Forwarded to " ++ fwd)) := by
  show (modifyNth _ idx df.rows).getD idx [] = _
  rw [modifyNth_getD_self _ _ _ hidx]

theorem forwardReply_rows_getD_ne (df : DataFrame) (idx j : Nat)
    (now fwd cm : String) (att : Option String) (h : j ≠ idx) :
    (forwardReply df idx now fwd cm att).rows.getD j [] = df.rows.getD j [] := by
  show (modifyNth _ idx df.rows).getD j [] = _
  exact modifyNth_getD_ne _ _ (fun hh => h hh.symm)

theorem forwardReply_rows_length (df : DataFrame) (idx : Nat)
    (now fwd cm : String) (att : Option String) :
    (forwardReply df idx now fwd cm att).rows.length = df.rows.length :=
  modifyNth_length _ _ _

/-! Claim C1. -/

/-- C1 counterexample: saving a record into a stored table whose one
pre-existing row has a NaN History cell changes that row (its History cell
becomes an empty list), so the result is not the previous table with one
row appended and every pre-existing row unchanged. -/
theorem c1_counterexample :
    dfNanHistory.rows.getD 0 [] = [("Title", Val.str "old"), ("History", Val.nan)] ∧
    (save_memo_record rowNew (some dfNanHistory)).rows.getD 0 [] =
      [("Title", Val.str "old"), ("History", Val.vlist [])] ∧
    (save_memo_record rowNew (some dfNanHistory)).rows.getD 0 [] ≠
      dfNanHistory.rows.getD 0 [] := by decide

/-- C1 (amended): when the records file exists, save_memo_record reads the
full table and writes back that table with exactly one row appended; every
pre-existing row is unchanged in every column other than History, the
appended row agrees with data in every column other than History, and every
History cell of the result is the normalized old cell (a missing History
column is created, and NaN or missing History cells become empty lists).
When the file does not exist, a one-row table holding data (with its
History cell likewise normalized) is created. -/
theorem c1_save_append_normalized (df : DataFrame) (data : Row) :
    (save_memo_record data (some df)).rows.length = df.rows.length + 1 ∧
    (∀ i c, i < df.rows.length → c ≠ "History" →
      Row.get ((save_memo_record data (some df)).rows.getD i []) c =
        Row.get (df.rows.getD i []) c) ∧
    (∀ c, c ≠ "History" →
      Row.get ((save_memo_record data (some df)).rows.getD df.rows.length []) c =
        Row.get data c) ∧
    (∀ i, i < df.rows.length + 1 →
      Row.get ((save_memo_record data (some df)).rows.getD i []) "History" =
        (if "History" ∈ (concatRow df data).cols then
          normHist (Row.get ((df.rows ++ [data]).getD i []) "History")
        else Val.vlist [])) ∧
    (save_memo_record data none).rows.length = 1 ∧
    (∀ c, c ≠ "History" →
      Row.get ((save_memo_record data none).rows.getD 0 []) c = Row.get data c) ∧
    Row.get ((save_memo_record data none).rows.getD 0 []) "History" =
      (if "History" ∈ rowCols data then normHist (Row.get data "History")
       else Val.vlist []) := by
  have hlen : (concatRow df data).rows.length = df.rows.length + 1 := by
    simp [concatRow]
  refine ⟨?_, ?_, ?_, ?_, ?_, ?_, ?_⟩
  · show (ensureHistory (concatRow df data)).rows.length = _
    rw [ensureHistory_rows_length, hlen]
  · intro i c hi hc
    show Row.get ((ensureHistory (concatRow df data)).rows.getD i []) c = _
    rw [ensureHistory_get_ne _ _ hc (by rw [hlen]; omega)]
    show Row.get ((df.rows ++ [data]).getD i []) c = _
    rw [getD_append_left _ _ _ hi]
  · intro c hc
    show Row.get ((ensureHistory (concatRow df data)).rows.getD df.rows.length []) c = _
    rw [ensureHistory_get_ne _ _ hc (by rw [hlen]; omega)]
    show Row.get ((df.rows ++ [data]).getD df.rows.length []) c = _
    rw [getD_append_length]
  · intro i hi
    show Row.get ((ensureHistory (concatRow df data)).rows.getD i []) "History" = _
    rw [ensureHistory_get_history _ _ (by rw [hlen]; omega)]
    rfl
  · show (ensureHistory ⟨rowCols data, [data]⟩).rows.length = 1
    rw [ensureHistory_rows_length]
    rfl
  · intro c hc
    show Row.get ((ensureHistory ⟨rowCols data, [data]⟩).rows.getD 0 []) c = _
    rw [ensureHistory_get_ne _ _ hc (by simp)]
    rfl
  · show Row.get ((ensureHistory ⟨rowCols data, [data]⟩).rows.getD 0 []) "History" = _
    rw [ensureHistory_get_history _ _ (by simp)]
    rfl

/-- C1 witness: a concrete instance of the amended save theorem. -/
theorem c1_witness :
    Row.get ((save_memo_record rowNew (some dfNanHistory)).rows.getD 0 []) "Title" =
      Row.get (dfNanHistory.rows.getD 0 []) "Title" :=
  (c1_save_append_normalized dfNanHistory rowNew).2.1 0 "Title" (by decide) (by decide)

/-! Claim C2. -/

/-- C2 counterexample: on a concrete pending memo, the Forward/Reply update
does not change exactly one field of the selected record — Status and
Current Location (and History) all change. -/
theorem c2_counterexample :
    ¬ ∃! c : String,
      Row.get ((forwardReply dfPending 0 "2025-01-01 10:00" "Bursary" "pls" none).rows.getD 0 []) c ≠
        Row.get (dfPending.rows.getD 0 []) c := by
  rintro ⟨c, -, huniq⟩
  have h1 : Row.get ((forwardReply dfPending 0 "2025-01-01 10:00" "Bursary" "pls" none).rows.getD 0 []) "Status" ≠
      Row.get (dfPending.rows.getD 0 []) "Status" := by decide
  have h2 : Row.get ((forwardReply dfPending 0 "2025-01-01 10:00" "Bursary" "pls" none).rows.getD 0 []) "Current Location" ≠
      Row.get (dfPending.rows.getD 0 []) "Current Location" := by decide
  have e1 := huniq _ h1
  have e2 := huniq _ h2
  have : ("Status" : String) = "Current Location" := e1.trans e2.symm
  exact absurd this (by decide)

/-- C2 (amended): the Forward/Reply update changes exactly three fields of
the selected record — it appends one entry to History, sets Current
Location to the forward target, and sets Status to "Forwarded to " ++
target — and it leaves every other field of that record, every other
record, and the column list unchanged. -/
theorem c2_forward_changes_three_fields (df : DataFrame) (idx : Nat)
    (now fwd cm : String) (att : Option String) (hidx : idx < df.rows.length) :
    (∀ c, c ≠ "History" → c ≠ "Current Location" → c ≠ "Status" →
      Row.get ((forwardReply df idx now fwd cm att).rows.getD idx []) c =
        Row.get (df.rows.getD idx []) c) ∧
    Row.get ((forwardReply df idx now fwd cm att).rows.getD idx []) "Current Location" =
      Val.str fwd ∧
    Row.get ((forwardReply df idx now fwd cm att).rows.getD idx []) "Status" =
      Val.str ("Forwarded to " ++ fwd) ∧
    Row.get ((forwardReply df idx now fwd cm att).rows.getD idx []) "History" =
      Val.vlist (histListOf (df.rows.getD idx []) ++ [mkForwardEntry now fwd cm att]) ∧
    (∀ j, j ≠ idx → (forwardReply df idx now fwd cm att).rows.getD j [] =
      df.rows.getD j []) ∧
    (forwardReply df idx now fwd cm att).rows.length = df.rows.length ∧
    (forwardReply df idx now fwd cm att).cols = df.cols := by
  have hrow : (forwardReply df idx now fwd cm att).rows.getD idx [] =
      Row.set (Row.set (Row.set (df.rows.getD idx []) "History"
        (Val.vlist (histListOf (df.rows.getD idx []) ++ [mkForwardEntry now fwd cm att])))
        "Current Location" (Val.str fwd)) "Status" (Val.str ("Forwarded to " ++ fwd)) := by
    show (modifyNth _ idx df.rows).getD idx [] = _
    rw [modifyNth_getD_self _ _ _ hidx]
  refine ⟨?_, ?_, ?_, ?_, ?_, ?_, rfl⟩
  · intro c h1 h2 h3
    rw [hrow, Row.get_set_ne _ _ (fun h => h3 h.symm),
      Row.get_set_ne _ _ (fun h => h2 h.symm), Row.get_set_ne _ _ (fun h => h1 h.symm)]
  · rw [hrow, Row.get_set_ne _ _ (by decide), Row.get_set_self]
  · rw [hrow, Row.get_set_self]
  · rw [hrow, Row.get_set_ne _ _ (by decide), Row.get_set_ne _ _ (by decide),
      Row.get_set_self]
  · intro j hj
    show (modifyNth _ idx df.rows).getD j [] = _
    exact modifyNth_getD_ne _ _ (fun h => hj h.symm)
  · show (modifyNth _ idx df.rows).length = _
    exact modifyNth_length _ _ _

/-- C2 witness: a concrete instance of the three-field frame theorem. -/
theorem c2_witness :
    Row.get ((forwardReply dfPending 0 "2025-01-01 10:00" "Bursary" "pls" none).rows.getD 0 [])
        "Memo Number" =
      Row.get (dfPending.rows.getD 0 []) "Memo Number" :=
  (c2_forward_changes_three_fields dfPending 0 "2025-01-01 10:00" "Bursary" "pls" none
    (by decide)).1 "Memo Number" (by decide) (by decide) (by decide)

/-! Claim C3. -/

theorem Row.get_mapCell (f : Val → Val) (hf : f Val.nan = Val.nan)
    (r : Row) (c : String) :
    Row.get (r.map (fun p => (p.1, f p.2))) c = f (Row.get r c) := by
  induction r with
  | nil => simp [Row.get, hf]
  | cons p r ih =>
    obtain ⟨c0, v0⟩ := p
    by_cases h : c0 = c
    · simp [Row.get, h]
    · simp [Row.get, h, ih]

theorem excelRoundTrip_get (df : DataFrame) (i : Nat) (c : String)
    (hi : i < df.rows.length) :
    Row.get ((excelRoundTrip df).rows.getD i []) c =
      excelCell (Row.get (df.rows.getD i []) c) := by
  show Row.get ((df.rows.map _).getD i []) c = _
  rw [getD_map_of_lt _ _ _ hi, Row.get_mapCell _ rfl]

/-- C3 counterexample: history does not survive persistence.  Forwarding
the pending memo stores one entry; the Excel round-trip turns that list
cell into its str(), so the rerun loads a string; the second Forward/Reply
press then discards the stored entry (the isinstance check at line 298
resets history to []) and writes a History list holding only the new
entry — the first entry has been removed. -/
theorem c3_counterexample :
    Row.get (dfRun1.rows.getD 0 []) "History" =
      Val.vlist [mkForwardEntry "2025-01-01 10:00" "Bursary" "c1" none] ∧
    Row.get ((excelRoundTrip dfRun1).rows.getD 0 []) "History" =
      Val.str (pyReprHist [mkForwardEntry "2025-01-01 10:00" "Bursary" "c1" none]) ∧
    Row.get (dfRun2.rows.getD 0 []) "History" =
      Val.vlist [mkForwardEntry "2025-01-02 11:00" "SA" "c2" none] ∧
    mkForwardEntry "2025-01-01 10:00" "Bursary" "c1" none ∉
      [mkForwardEntry "2025-01-02 11:00" "SA" "c2" none] := by decide

/-- C3 (amended): within one script run, the Forward/Reply action appends
exactly one entry (date, action, recipient, comment, attachment name) to
the selected memo's in-memory History list and leaves every other row's
History cell unchanged; but persisting the table stringifies a list cell
(to_excel stores str(list)), so the next run loads the history as a
string, and the next Forward/Reply on that memo discards the stored
history and replaces it with a list holding only the new entry — history
is not append-only across persistence. -/
theorem c3_append_in_memory_lost_on_persist :
    (∀ (df : DataFrame) (idx : Nat) (now fwd cm : String) (att : Option String)
      (h : List HEntry),
      idx < df.rows.length →
      Row.get (df.rows.getD idx []) "History" = Val.vlist h →
      Row.get ((forwardReply df idx now fwd cm att).rows.getD idx []) "History" =
        Val.vlist (h ++ [mkForwardEntry now fwd cm att])) ∧
    (∀ (df : DataFrame) (idx j : Nat) (now fwd cm : String) (att : Option String),
      j ≠ idx →
      Row.get ((forwardReply df idx now fwd cm att).rows.getD j []) "History" =
        Row.get (df.rows.getD j []) "History") ∧
    (∀ (df : DataFrame) (i : Nat) (h : List HEntry),
      i < df.rows.length →
      Row.get (df.rows.getD i []) "History" = Val.vlist h →
      Row.get ((excelRoundTrip df).rows.getD i []) "History" =
        Val.str (pyReprHist h)) ∧
    (∀ (df : DataFrame) (idx : Nat) (now fwd cm : String) (att : Option String)
      (s : String),
      idx < df.rows.length →
      Row.get (df.rows.getD idx []) "History" = Val.str s →
      Row.get ((forwardReply df idx now fwd cm att).rows.getD idx []) "History" =
        Val.vlist [mkForwardEntry now fwd cm att]) := by
  refine ⟨?_, ?_, ?_, ?_⟩
  · intro df idx now fwd cm att h hidx hhist
    rw [forwardReply_rows_getD_self _ _ _ _ _ _ hidx,
      Row.get_set_ne _ _ (by decide), Row.get_set_ne _ _ (by decide),
      Row.get_set_self]
    unfold histListOf
    rw [hhist]
  · intro df idx j now fwd cm att hj
    rw [forwardReply_rows_getD_ne _ _ _ _ _ _ _ hj]
  · intro df i h hi hhist
    rw [excelRoundTrip_get _ _ _ hi, hhist]
    rfl
  · intro df idx now fwd cm att s hidx hhist
    rw [forwardReply_rows_getD_self _ _ _ _ _ _ hidx,
      Row.get_set_ne _ _ (by decide), Row.get_set_ne _ _ (by decide),
      Row.get_set_self]
    unfold histListOf
    rw [hhist]
    rfl

/-- C3 witness: on the concrete table whose stored History cell is a
string, the next Forward/Reply replaces it with just the new entry. -/
theorem c3_witness :
    Row.get ((forwardReply dfStrHistory 0 "d" "SA" "c" none).rows.getD 0 [])
        "History" =
      Val.vlist [mkForwardEntry "d" "SA" "c" none] :=
  c3_append_in_memory_lost_on_persist.2.2.2 dfStrHistory 0 "d" "SA" "c" none
    "stale" (by decide) (by decide)

/-! Claim C4. -/

/-- C4 counterexample: the Preview & Approve / Forward page offers exactly
one operation, the Forward/Reply button; there is no operation besides the
forwarding one, hence no approve operation the user can apply. -/
theorem c4_counterexample :
    pageButtons "Preview & Approve / Forward" = ["Forward/Reply"] ∧
    ¬ ∃ b ∈ pageButtons "Preview & Approve / Forward", b ≠ "Forward/Reply" := by
  decide

/-- C4 (amended): the system provides a forward workflow with a comment
history — the only operation of the preview page (and the only mutating
operation of any page besides logging a new memo) is Forward/Reply, whose
history entry records the comment; no approve operation exists. -/
theorem c4_only_forward_no_approve :
    appPages.map pageButtons =
      [["Save Memo Record"], ["Download Filtered Records"], ["Forward/Reply"]] ∧
    (∀ now fwd cm att, (mkForwardEntry now fwd cm att).Comment = cm) :=
  ⟨by decide, fun _ _ _ _ => rfl⟩

/-! Claim C5. -/

/-- runProg on a write node, unfolded. -/
theorem runProg_write (oracle : String → Bool) (q : String) (k : Prog) :
    runProg oracle (Prog.write q k) =
      if oracle q then (q :: (runProg oracle k).1, (runProg oracle k).2)
      else ([], Except.error q) := rfl

/-- C5: the embedded write sequences of the Save Memo Record handler and
the Forward/Reply handler contain no try/except, and a catch-free program
run against any success oracle either performs all of its writes and
returns ok, or stops at the first failing write and propagates that
exception uncaught. -/
theorem c5_writes_all_or_exception :
    (∀ (titleEmpty noUpload isPdf : Bool) (p : String),
      catchFree (saveMemoProg titleEmpty noUpload isPdf p) = true) ∧
    (∀ (hasAtt : Bool) (p : String), catchFree (forwardReplyProg hasAtt p) = true) ∧
    (∀ (oracle : String → Bool) (p : Prog), catchFree p = true →
      ((runProg oracle p).2 = Except.ok () ∧ (runProg oracle p).1 = progWrites p) ∨
      ∃ e, (runProg oracle p).2 = Except.error e ∧ oracle e = false) := by
  refine ⟨?_, ?_, ?_⟩
  · intro b1 b2 b3 p
    cases b1 <;> cases b2 <;> cases b3 <;> simp [saveMemoProg, catchFree]
  · intro b p
    cases b <;> simp [forwardReplyProg, catchFree]
  · intro oracle p hp
    induction p with
    | ret => exact Or.inl ⟨rfl, rfl⟩
    | write q k ih =>
      have hk : catchFree k = true := hp
      by_cases ho : oracle q
      · rcases ih hk with ⟨h1, h2⟩ | ⟨e, h1, h2⟩
        · left
          rw [runProg_write, if_pos ho]
          exact ⟨h1, by show q :: (runProg oracle k).1 = q :: progWrites k; rw [h2]⟩
        · right
          exact ⟨e, by rw [runProg_write, if_pos ho]; exact h1, h2⟩
      · right
        refine ⟨q, by rw [runProg_write, if_neg ho], ?_⟩
        simpa using ho
    | tryCatch b h k ihb ihh ihk => exact absurd hp (by simp [catchFree])

/-- C5 witness: for a pdf upload that passes validation, with an oracle
under which all writes succeed, the run performs all three writes and
returns ok. -/
theorem c5_witness :
    ((runProg (fun _ => true) (saveMemoProg false false true "memos/scanned//N.pdf")).2 =
        Except.ok () ∧
      (runProg (fun _ => true) (saveMemoProg false false true "memos/scanned//N.pdf")).1 =
        progWrites (saveMemoProg false false true "memos/scanned//N.pdf")) ∨
    ∃ e, (runProg (fun _ => true) (saveMemoProg false false true "memos/scanned//N.pdf")).2 =
        Except.error e ∧ (fun _ => true) e = false :=
  c5_writes_all_or_exception.2.2 (fun _ => true)
    (saveMemoProg false false true "memos/scanned//N.pdf") (by decide)

/-! Claim C6. -/

theorem mem_getD_of_mem (l : List Row) (r : Row) (hr : r ∈ l) :
    ∃ j, j < l.length ∧ l.getD j [] = r := by
  induction l with
  | nil => simp at hr
  | cons a t ih =>
    rcases List.mem_cons.mp hr with h | h
    · exact ⟨0, by simp, by simp [h]⟩
    · obtain ⟨j, hj, hg⟩ := ih h
      exact ⟨j + 1, by simpa using hj, by simpa using hg⟩

theorem forwardReply_mem_rows (df : DataFrame) (idx : Nat)
    (now fwd cm : String) (att : Option String) (r : Row)
    (hr : r ∈ (forwardReply df idx now fwd cm att).rows) :
    ∃ j, j < df.rows.length ∧
      (forwardReply df idx now fwd cm att).rows.getD j [] = r := by
  obtain ⟨j, hj, hg⟩ := mem_getD_of_mem _ _ hr
  rw [forwardReply_rows_length] at hj
  exact ⟨j, hj, hg⟩

/-- C6: a Forward/Reply press overwrites the records file with the whole
table that was loaded at script start, with just the selected row updated:
the written file equals forwardReply of the loaded table, it does not
depend on the storage state at press time (in particular not on the file's
current content), and every row of the written table arises from a row of
the loaded table — the selected row updated, every other row verbatim — so
a row present in the file but absent from the loaded table does not
survive the write. -/
theorem c6_last_write_wins (F0 : Option DataFrame) (σ σ' : Storage) (idx : Nat)
    (sel now fwd cm : String) (att : Option Upload) :
    (scriptForwardRun F0 idx sel now fwd cm att σ).memoFile =
      some (forwardReply (load_memos F0) idx now fwd cm (att.map (·.name))) ∧
    (scriptForwardRun F0 idx sel now fwd cm att σ).memoFile =
      (scriptForwardRun F0 idx sel now fwd cm att σ').memoFile ∧
    (∀ r, r ∈ (forwardReply (load_memos F0) idx now fwd cm (att.map (·.name))).rows →
      ∃ j, j < (load_memos F0).rows.length ∧
        (j ≠ idx → r = (load_memos F0).rows.getD j []) ∧
        (j = idx →
          r = (forwardReply (load_memos F0) idx now fwd cm
            (att.map (·.name))).rows.getD idx [])) := by
  refine ⟨?_, ?_, ?_⟩
  · cases att <;> rfl
  · cases att <;> rfl
  · intro r hr
    obtain ⟨j, hj, hg⟩ := forwardReply_mem_rows _ _ _ _ _ _ _ hr
    refine ⟨j, hj, fun hne => ?_, fun heq => ?_⟩
    · rw [← hg, forwardReply_rows_getD_ne _ _ _ _ _ _ _ hne]
    · rw [← hg, heq]

/-- C6 witness: a concrete press — the row the write produces comes from
the loaded table with index 0 updated. -/
theorem c6_witness :
    ∃ j, j < (load_memos (some dfPending)).rows.length ∧
      (j ≠ 0 →
        (forwardReply (load_memos (some dfPending)) 0 "t" "Bursary" "c" none).rows.getD 0 [] =
          (load_memos (some dfPending)).rows.getD j []) ∧
      (j = 0 →
        (forwardReply (load_memos (some dfPending)) 0 "t" "Bursary" "c" none).rows.getD 0 [] =
          (forwardReply (load_memos (some dfPending)) 0 "t" "Bursary" "c" none).rows.getD 0 []) :=
  (c6_last_write_wins (some dfPending) storage0 storage0 0 "M1" "t" "Bursary" "c" none).2.2
    ((forwardReply (load_memos (some dfPending)) 0 "t" "Bursary" "c" none).rows.getD 0 [])
    (by decide)

/-! Claim C7. -/

theorem setColumn_mem_cols (df : DataFrame) (c : String) (f : Row → Val) :
    c ∈ (setColumn df c f).cols := by
  simp only [setColumn]
  split
  · assumption
  · simp

theorem ensureHistory_mem_cols (df : DataFrame) :
    "History" ∈ (ensureHistory df).cols := by
  unfold ensureHistory
  split <;> exact setColumn_mem_cols _ _ _

theorem ensureHistory_history_ne_nan (df : DataFrame) (i : Nat)
    (hi : i < df.rows.length) :
    Row.get ((ensureHistory df).rows.getD i []) "History" ≠ Val.nan := by
  rw [ensureHistory_get_history _ _ hi]
  split
  · exact normHist_ne_nan _
  · exact fun hc => Val.noConfusion hc

/-- C7 counterexample: a stored History cell holding a non-NaN, non-list
value (as an Excel round-trip of a list cell produces) survives load_memos
unchanged, so it is not the case that after the operation every row's
History value is a list. -/
theorem c7_counterexample :
    Row.get ((load_memos (some dfStrHistory)).rows.getD 0 []) "History" =
      Val.str "stale" ∧
    ∀ h : List HEntry,
      Row.get ((load_memos (some dfStrHistory)).rows.getD 0 []) "History" ≠
        Val.vlist h := by
  refine ⟨by decide, ?_⟩
  intro h hc
  have h1 : Row.get ((load_memos (some dfStrHistory)).rows.getD 0 []) "History" =
      Val.str "stale" := by decide
  rw [h1] at hc
  exact Val.noConfusion hc

/-- C7 (amended): load_memos and save_memo_record create the History column
whenever it is missing and replace every missing (NaN) History cell with an
empty list, so after either operation the History column exists and no
row's History cell is NaN — it is the normalized old cell: an empty list
where the stored cell was NaN or the column missing, the old value
otherwise (in particular a non-NaN, non-list stored value is kept as-is);
likewise the dashboard creates the Current Location column when it is
absent. -/
theorem c7_column_on_demand :
    (∀ (df : DataFrame) (i : Nat), i < df.rows.length →
      Row.get ((load_memos (some df)).rows.getD i []) "History" =
        (if "History" ∈ df.cols then
          normHist (Row.get (df.rows.getD i []) "History")
        else Val.vlist [])) ∧
    (∀ (df : DataFrame) (i : Nat), i < df.rows.length →
      Row.get ((load_memos (some df)).rows.getD i []) "History" ≠ Val.nan) ∧
    (∀ (data : Row) (file : Option DataFrame) (i : Nat),
      i < (save_memo_record data file).rows.length →
      Row.get ((save_memo_record data file).rows.getD i []) "History" ≠ Val.nan) ∧
    (∀ df : DataFrame, "History" ∈ (load_memos (some df)).cols) ∧
    (∀ (data : Row) (file : Option DataFrame),
      "History" ∈ (save_memo_record data file).cols) ∧
    (∀ df : DataFrame, "Current Location" ∈ (dashboard_ensure_location df).cols) := by
  refine ⟨?_, ?_, ?_, ?_, ?_, ?_⟩
  · intro df i hi
    exact ensureHistory_get_history df i hi
  · intro df i hi
    exact ensureHistory_history_ne_nan df i hi
  · intro data file i hi
    cases file with
    | none =>
      have hi' : i < (⟨rowCols data, [data]⟩ : DataFrame).rows.length := by
        have := hi
        rwa [show (save_memo_record data none).rows.length =
          (⟨rowCols data, [data]⟩ : DataFrame).rows.length from
          ensureHistory_rows_length _] at this
      exact ensureHistory_history_ne_nan _ i hi'
    | some df =>
      have hi' : i < (concatRow df data).rows.length := by
        have := hi
        rwa [show (save_memo_record data (some df)).rows.length =
          (concatRow df data).rows.length from ensureHistory_rows_length _] at this
      exact ensureHistory_history_ne_nan _ i hi'
  · intro df
    exact ensureHistory_mem_cols df
  · intro data file
    cases file with
    | none => exact ensureHistory_mem_cols _
    | some df => exact ensureHistory_mem_cols _
  · intro df
    unfold dashboard_ensure_location
    by_cases h1 : "Current Location" ∈ df.cols
    · rwa [if_pos h1]
    · rw [if_neg h1]
      by_cases h2 : "To" ∈ df.cols
      · rw [if_pos h2]
        exact setColumn_mem_cols _ _ _
      · rw [if_neg h2]
        exact setColumn_mem_cols _ _ _

/-- C7 witness: on the concrete string-History table, load keeps the cell
as the normalized old value. -/
theorem c7_witness :
    Row.get ((load_memos (some dfStrHistory)).rows.getD 0 []) "History" =
      (if "History" ∈ dfStrHistory.cols then
        normHist (Row.get (dfStrHistory.rows.getD 0 []) "History")
      else Val.vlist []) :=
  c7_column_on_demand.1 dfStrHistory 0 (by decide)

/-! Claim C8. -/

/-- C8: when the entered title is empty after stripping or no file was
uploaded, the Save Memo Record handler performs no writes at all — the
whole persistent state (records file, scanned folder, attachments folder)
is returned unchanged — and the outcome is an error message, not
success. -/
theorem c8_validation_blocks_writes (mn : String) (f : LogForm)
    (up : Option Upload) (σ : Storage)
    (h : pyStrip f.title = "" ∨ up = none) :
    (saveMemoButton mn f up σ).2 = σ ∧
    (saveMemoButton mn f up σ).1 ≠ SaveOutcome.success := by
  unfold saveMemoButton
  by_cases ht : pyStrip f.title = ""
  · rw [if_pos ht]
    exact ⟨rfl, fun hc => SaveOutcome.noConfusion hc⟩
  · rw [if_neg ht]
    rcases h with h | h
    · exact absurd h ht
    · subst h
      exact ⟨rfl, fun hc => SaveOutcome.noConfusion hc⟩

/-- C8 witness: a whitespace-only title leaves the state untouched. -/
theorem c8_witness :
    (saveMemoButton "NITT/DG/2025/0001" { formInternal with title := "  " }
      (some ⟨"scan.pdf"⟩) storage0).2 = storage0 ∧
    (saveMemoButton "NITT/DG/2025/0001" { formInternal with title := "  " }
      (some ⟨"scan.pdf"⟩) storage0).1 ≠ SaveOutcome.success :=
  c8_validation_blocks_writes "NITT/DG/2025/0001" { formInternal with title := "  " }
    (some ⟨"scan.pdf"⟩) storage0 (Or.inl (by decide))

/-! Claim C9. -/

theorem save_memo_record_last_get_ne (data : Row) (file : Option DataFrame)
    {c : String} (hc : c ≠ "History") :
    Row.get ((save_memo_record data file).rows.getD
      ((save_memo_record data file).rows.length - 1) []) c = Row.get data c := by
  cases file with
  | none =>
    show Row.get ((ensureHistory ⟨rowCols data, [data]⟩).rows.getD
      ((ensureHistory ⟨rowCols data, [data]⟩).rows.length - 1) []) c = _
    rw [ensureHistory_rows_length]
    show Row.get ((ensureHistory ⟨rowCols data, [data]⟩).rows.getD 0 []) c = _
    rw [ensureHistory_get_ne _ _ hc (by simp)]
    rfl
  | some df =>
    have hlen : (concatRow df data).rows.length = df.rows.length + 1 := by
      simp [concatRow]
    show Row.get ((ensureHistory (concatRow df data)).rows.getD
      ((ensureHistory (concatRow df data)).rows.length - 1) []) c = _
    rw [ensureHistory_rows_length, hlen, Nat.add_sub_cancel,
      ensureHistory_get_ne _ _ hc (by rw [hlen]; omega)]
    show Row.get ((df.rows ++ [data]).getD df.rows.length []) c = _
    rw [getD_append_length]

theorem memo_data_get_status (mn : String) (f : LogForm) :
    Row.get (memo_data mn f) "Status" = Val.str "Pending" := by
  unfold memo_data
  by_cases h : f.memoType = "Internal" <;>
    simp [h, Row.get]

theorem memo_data_get_location (mn : String) (f : LogForm) :
    Row.get (memo_data mn f) "Current Location" =
      Val.str (if f.memoType = "Internal" then f.toDept else f.senderName) := by
  unfold memo_data
  by_cases h : f.memoType = "Internal" <;>
    simp [h, Row.get]

/-- C9: when validation passes, the handler appends a record whose Status
is "Pending" and whose Current Location is the destination department for
an Internal memo and the sender name for an External one; the written
table's last row carries those values. -/
theorem c9_new_record_status_location (mn : String) (f : LogForm) (u : Upload)
    (σ : Storage) (ht : pyStrip f.title ≠ "") :
    ∃ ndf : DataFrame,
      (saveMemoButton mn f (some u) σ).2.memoFile = some ndf ∧
      (saveMemoButton mn f (some u) σ).1 = SaveOutcome.success ∧
      Row.get (ndf.rows.getD (ndf.rows.length - 1) []) "Status" =
        Val.str "Pending" ∧
      (f.memoType = "Internal" →
        Row.get (ndf.rows.getD (ndf.rows.length - 1) []) "Current Location" =
          Val.str f.toDept) ∧
      (f.memoType = "External" →
        Row.get (ndf.rows.getD (ndf.rows.length - 1) []) "Current Location" =
          Val.str f.senderName) := by
  have hstat := memo_data_get_status mn f
  have hloc := memo_data_get_location mn f
  refine ⟨save_memo_record (memo_data mn f) σ.memoFile, ?_, ?_, ?_, ?_, ?_⟩
  · unfold saveMemoButton
    rw [if_neg ht]
    simp only []
    split <;> rfl
  · unfold saveMemoButton
    rw [if_neg ht]
  · rw [save_memo_record_last_get_ne _ _ (by decide), hstat]
  · intro hint
    rw [save_memo_record_last_get_ne _ _ (by decide), hloc, if_pos hint]
  · intro hext
    have hne : f.memoType ≠ "Internal" := by
      rw [hext]; decide
    rw [save_memo_record_last_get_ne _ _ (by decide), hloc, if_neg hne]

/-- C9 witness: logging the concrete internal form produces a last row
with Status Pending. -/
theorem c9_witness :
    ∃ ndf : DataFrame,
      (saveMemoButton "NITT/DG/2025/0001" formInternal (some ⟨"s.png"⟩) storage0).2.memoFile =
        some ndf ∧
      (saveMemoButton "NITT/DG/2025/0001" formInternal (some ⟨"s.png"⟩) storage0).1 =
        SaveOutcome.success ∧
      Row.get (ndf.rows.getD (ndf.rows.length - 1) []) "Status" =
        Val.str "Pending" ∧
      (formInternal.memoType = "Internal" →
        Row.get (ndf.rows.getD (ndf.rows.length - 1) []) "Current Location" =
          Val.str formInternal.toDept) ∧
      (formInternal.memoType = "External" →
        Row.get (ndf.rows.getD (ndf.rows.length - 1) []) "Current Location" =
          Val.str formInternal.senderName) :=
  c9_new_record_status_location "NITT/DG/2025/0001" formInternal ⟨"s.png"⟩ storage0
    (by decide)

/-! Claim C10. -/

theorem decDigitsBE_length_ge (n : Nat) (hn : 1000 ≤ n) :
    4 ≤ (decDigitsBE n).length := by
  unfold decDigitsBE
  rw [List.length_reverse]
  by_contra hlt
  push_neg at hlt
  have h1 := Nat.lt_base_pow_length_digits (b := 10) (m := n) (by norm_num)
  have h2 : (10 : ℕ) ^ (Nat.digits 10 n).length ≤ 10 ^ 3 :=
    Nat.pow_le_pow_right (by norm_num) (by omega)
  have h3 : (10 : ℕ) ^ 3 = 1000 := by norm_num
  omega

theorem decChar_isDigit (d : Nat) (hd : d < 10) : (decChar d).isDigit = true := by
  interval_cases d <;> decide

theorem pyStr_chars_digits (n : Nat) : ∀ c ∈ (pyStr n).data, c.isDigit = true := by
  intro c hc
  have hc' : c ∈ (decDigitsBE n).map decChar := hc
  obtain ⟨d, hd, rfl⟩ := List.mem_map.mp hc'
  have hd' : d ∈ Nat.digits 10 n := by
    have : d ∈ (Nat.digits 10 n).reverse := hd
    exact List.mem_reverse.mp this
  exact decChar_isDigit d (Nat.digits_lt_base (by norm_num) hd')

/-- C10: generate_memo_number, for the current year and a fresh uuid4 value
u (whose version field forces 4 * 2^76 ≤ u), returns
"NITT/DG/" ++ year ++ "/" ++ id where id is exactly the first 4 decimal
digit characters of str(u); its only inputs are the year and the uuid, not
any stored memo records. -/
theorem c10_memo_number_format (year u : Nat) (h : 4 * 2 ^ 76 ≤ u) :
    ∃ id : String,
      generate_memo_number year u = "NITT/DG/" ++ pyStr year ++ "/" ++ id ∧
      id = pyTake (pyStr u) 4 ∧
      id.data.length = 4 ∧
      ∀ c ∈ id.data, c.isDigit = true := by
  refine ⟨pyTake (pyStr u) 4, rfl, rfl, ?_, ?_⟩
  · have hlen : 4 ≤ (pyStr u).data.length := by
      show 4 ≤ ((decDigitsBE u).map decChar).length
      rw [List.length_map]
      refine decDigitsBE_length_ge u ?_
      have hbig : (1000 : ℕ) ≤ 4 * 2 ^ 76 := by norm_num
      omega
    show ((pyStr u).data.take 4).length = 4
    rw [List.length_take]
    omega
  · intro c hc
    have hc' : c ∈ (pyStr u).data.take 4 := hc
    exact pyStr_chars_digits u c (List.mem_of_mem_take hc')

/-- C10 witness: the smallest uuid4-shaped value. -/
theorem c10_witness :
    ∃ id : String,
      generate_memo_number 2025 (4 * 2 ^ 76) = "NITT/DG/" ++ pyStr 2025 ++ "/" ++ id ∧
      id = pyTake (pyStr (4 * 2 ^ 76)) 4 ∧
      id.data.length = 4 ∧
      ∀ c ∈ id.data, c.isDigit = true :=
  c10_memo_number_format 2025 (4 * 2 ^ 76) (by norm_num)
